import Mathlib

/-!
Record-Manipulator-FE — edit-buffering and synchronization subsystem

Shallow embedding of the repository's core state-management code:

* `DirtyEngine`            (src/engines/dirty.engine.ts)
* `AutosaveEngine`         (src/engines/autosave.engine.ts)
* `PaginationEngine`       (src/engines/pagination.engine.ts)
* `RecordStore`            (src/state/record.store.ts — the revision that defines
                            `createRecord` and the search guard, i.e. the module the
                            record hooks import; an older revision of the same class,
                            without those methods, also survives in the tree)
* `AutosaveStore`          (src/state/autosave.store.ts)

JavaScript objects and `Map`s are modelled as insertion-ordered association
lists with string keys (neither ever holds a duplicate key at runtime).
`Date.now()` is passed in explicitly as a `Nat` wherever the source reads it.
`async` functions that can throw are modelled as pure functions returning the
post-state together with an `Except String Unit` (the settled promise; the
`String` is the thrown error's `.message`).  Remote API calls are modelled by
passing the call's eventual result in as an `Except` parameter and recording
each issued call, so that theorems can count network traffic.
-/

namespace RecordFE

/-- JSON-ish cell values held in a record's `data` object (TS `unknown`). -/
inductive Value where
  | str (s : String)
  | num (n : Int)
  | boolean (b : Bool)
  | nil
deriving DecidableEq, Repr

/-- A JavaScript object with string keys: insertion-ordered association list. -/
abbrev Obj := List (String × Value)

/-- JS keyed write (`Map.set`, or assigning one property during an object
spread): overwrite the existing entry in place, else append at the end.
JS maps and object literals never hold a duplicate key. -/
def objSet : List (String × α) → String → α → List (String × α)
  | [], k, v => [(k, v)]
  | p :: rest, k, v => if p.1 = k then (k, v) :: rest else p :: objSet rest k v

/-- JS keyed read (`Map.get` / property access), `none` for `undefined`. -/
def objGet : List (String × α) → String → Option α
  | [], _ => none
  | p :: rest, k => if p.1 = k then some p.2 else objGet rest k

/-- JS `Map.delete` (also the effect of removing a key from an object). -/
def objRemove (m : List (String × α)) (k : String) : List (String × α) :=
  m.filter (fun p => p.1 ≠ k)

/-- JS object spread `{...a, ...b}`: start from `a`, write every entry of `b`
left to right. A key named in both keeps `a`'s position but `b`'s value; keys
only in `b` are appended in order. -/
def spread (a b : List (String × α)) : List (String × α) :=
  b.foldl (fun acc p => objSet acc p.1 p.2) a

/-- Models `a !== undefined ? a : b`: the first operand when present, else the
second.  Also the lookup rule of an object spread (`{...y, ...x}` reads `x`'s
value when the key is in `x`, else `y`'s). -/
def firstSome (a b : Option α) : Option α :=
  match a with
  | some v => some v
  | none => b

theorem objGet_objSet_self (m : List (String × α)) (k : String) (v : α) :
    objGet (objSet m k v) k = some v := by
  induction m with
  | nil => simp [objSet, objGet]
  | cons p rest ih =>
    by_cases h : p.1 = k
    · simp [objSet, objGet, h]
    · simp [objSet, objGet, h, ih]

theorem objGet_objSet_ne (m : List (String × α)) (k k' : String) (v : α)
    (h : k' ≠ k) : objGet (objSet m k v) k' = objGet m k' := by
  induction m with
  | nil => simp [objSet, objGet, Ne.symm h]
  | cons p rest ih =>
    by_cases hp : p.1 = k
    · subst hp
      simp [objSet, objGet, Ne.symm h]
    · by_cases hp' : p.1 = k'
      · simp [objSet, objGet, hp, hp', h]
      · simp [objSet, objGet, hp, hp', ih]

theorem objGet_eq_none_of_notMem (m : List (String × α)) (k : String)
    (h : k ∉ m.map Prod.fst) : objGet m k = none := by
  induction m with
  | nil => rfl
  | cons p rest ih =>
    simp only [List.map_cons, List.mem_cons] at h
    push_neg at h
    simp [objGet, Ne.symm h.1, ih h.2]

theorem objGet_spread_of_none (a b : List (String × α)) (k : String)
    (h : objGet b k = none) : objGet (spread a b) k = objGet a k := by
  induction b generalizing a with
  | nil => rfl
  | cons p rest ih =>
    simp only [objGet] at h
    by_cases hp : p.1 = k
    · simp [hp] at h
    · simp only [hp, if_false] at h
      show objGet (spread (objSet a p.1 p.2) rest) k = objGet a k
      rw [ih _ h, objGet_objSet_ne _ _ _ _ (Ne.symm hp)]

/-- Lookup after an object spread: a key of `b` (JS objects have no duplicate
keys, hence the `Nodup` hypothesis) reads `b`'s value, any other key reads
`a`'s. -/
theorem objGet_spread (a b : List (String × α)) (k : String)
    (hb : (b.map Prod.fst).Nodup) :
    objGet (spread a b) k = firstSome (objGet b k) (objGet a k) := by
  induction b generalizing a with
  | nil => rfl
  | cons p rest ih =>
    simp only [List.map_cons, List.nodup_cons] at hb
    by_cases hp : p.1 = k
    · subst hp
      have hrest : objGet rest p.1 = none := objGet_eq_none_of_notMem _ _ hb.1
      show objGet (spread (objSet a p.1 p.2) rest) p.1 = _
      rw [objGet_spread_of_none _ _ _ hrest, objGet_objSet_self]
      simp [objGet, firstSome]
    · show objGet (spread (objSet a p.1 p.2) rest) k = _
      rw [ih _ hb.2]
      simp only [objGet, hp, if_false]
      cases hrk : objGet rest k with
      | some v => simp [firstSome]
      | none => simp [firstSome, objGet_objSet_ne _ _ _ _ (Ne.symm hp)]

/-! ## DirtyEngine (src/engines/dirty.engine.ts) -/

/-- Entry of the dirty map (`DirtyRecord` in the source). -/
structure DirtyRecord where
  id : String
  data : Obj
  timestamp : Nat
deriving DecidableEq, Repr

/-- Payload shape handed to the batch-update API (`RecordUpdatePayload`). -/
structure RecordUpdatePayload where
  id : String
  data : Obj
deriving DecidableEq, Repr

/-- Models `DirtyEngine`: `private dirty: Map<string, DirtyRecord>`. -/
structure DirtyEngine where
  dirty : List (String × DirtyRecord)
deriving DecidableEq, Repr

namespace DirtyEngine

def empty : DirtyEngine := ⟨[]⟩

/-- Models `mark(id, data)`: wholesale replacement of the entry for `id`. -/
def mark (e : DirtyEngine) (id : String) (data : Obj) (now : Nat) : DirtyEngine :=
  ⟨objSet e.dirty id ⟨id, data, now⟩⟩

/-- Models `clear(id)`. -/
def clear (e : DirtyEngine) (id : String) : DirtyEngine :=
  ⟨objRemove e.dirty id⟩

/-- Models `getDirty(id)`: `this.dirty.get(id) || null`. -/
def getDirty (e : DirtyEngine) (id : String) : Option DirtyRecord :=
  objGet e.dirty id

/-- Models `isDirty(id)`: `this.dirty.has(id)`. -/
def isDirty (e : DirtyEngine) (id : String) : Bool :=
  (objGet e.dirty id).isSome

/-- Models `hasDirty()`: `this.dirty.size > 0`. -/
def hasDirty (e : DirtyEngine) : Bool :=
  e.dirty.length > 0

/-- Models `getDirtyCount()`: `this.dirty.size`. -/
def getDirtyCount (e : DirtyEngine) : Nat :=
  e.dirty.length

/-- Models `getDirtyRecords()`: snapshot of all entries as payloads, no clearing. -/
def getDirtyRecords (e : DirtyEngine) : List RecordUpdatePayload :=
  e.dirty.map (fun p => ⟨p.2.id, p.2.data⟩)

/-- Models `flush()`: same snapshot as `getDirtyRecords`, then the map is cleared. -/
def flush (e : DirtyEngine) : List RecordUpdatePayload × DirtyEngine :=
  (e.getDirtyRecords, empty)

/-- Models `clearAll()`. -/
def clearAll (_e : DirtyEngine) : DirtyEngine := empty

/-- Models `getDirtyIds()`. -/
def getDirtyIds (e : DirtyEngine) : List String :=
  e.dirty.map Prod.fst

/-- Models `update(id, data)`: merge `data` into the existing entry's patch via
object spread, or fall back to `mark` when `id` has no entry yet. -/
def update (e : DirtyEngine) (id : String) (data : Obj) (now : Nat) : DirtyEngine :=
  match objGet e.dirty id with
  | some existing => ⟨objSet e.dirty id ⟨existing.id, spread existing.data data, now⟩⟩
  | none => e.mark id data now

end DirtyEngine

/-! ## JS truthiness helpers -/

/-- JS truthiness of a possibly-`undefined`/`null` boolean. -/
def truthyB : Option Bool → Bool
  | some b => b
  | none => false

/-- JS truthiness of a possibly-`null` string: `null`, `undefined` and `''`
are falsy. -/
def truthyS : Option String → Bool
  | some s => s ≠ ""
  | none => false

/-- JS truthiness of a possibly-`undefined` number: `0` and `undefined` are
falsy. -/
def truthyN : Option Nat → Bool
  | some n => n ≠ 0
  | none => false

/-- JS `a || b` on possibly-undefined numbers (`0` counts as falsy, so a
present-but-zero `a` still falls through to `b`). -/
def jsOrNat (a b : Option Nat) : Option Nat :=
  if truthyN a then a else b

/-! ## Pagination metadata and its normalization
(src/state/record.store.ts, the blocks commented
"Handle both response formats (snake_case and camelCase)") -/

/-- Wire-level pagination `meta` of a fetch/search response.  Either the
snake_case or the camelCase spelling of each field may be present (`none`
models an absent / `undefined` property); `page` and `total` are read under
one name only. -/
structure WireMeta where
  page : Nat
  total : Nat
  page_size : Option Nat
  limit : Option Nat
  total_page : Option Nat
  totalPages : Option Nat
  has_next_page : Option Bool
  hasNext : Option Bool
  has_prev_page : Option Bool
  hasPrev : Option Bool
deriving DecidableEq, Repr

/-- The canonical shape handed to `PaginationEngine.setMeta`.  The numeric
fields stay possibly-`undefined` because the source builds this object under
an `as any` cast, where `x || y` can produce `undefined`. -/
structure NormMeta where
  page : Nat
  limit : Option Nat
  total : Nat
  totalPages : Option Nat
  hasNext : Option Bool
  hasPrev : Option Bool
deriving DecidableEq, Repr

/-- Meta normalization as written in `fetchRecords` and `searchRecords`:
`page_size || limit`, `total_page || totalPages`, and
`has_next_page !== undefined ? has_next_page : hasNext` (same for prev). -/
def normalizeMeta (m : WireMeta) : NormMeta where
  page := m.page
  limit := jsOrNat m.page_size m.limit
  total := m.total
  totalPages := jsOrNat m.total_page m.totalPages
  hasNext := firstSome m.has_next_page m.hasNext
  hasPrev := firstSome m.has_prev_page m.hasPrev

/-- A response whose meta uses only the snake_case field names, carrying the
given canonical values. -/
def snakeWire (page limit total totalPages : Nat) (hasNext hasPrev : Bool) : WireMeta :=
  ⟨page, total, some limit, none, some totalPages, none, some hasNext, none, some hasPrev, none⟩

/-- A response whose meta uses only the camelCase field names, carrying the
given canonical values. -/
def camelWire (page limit total totalPages : Nat) (hasNext hasPrev : Bool) : WireMeta :=
  ⟨page, total, none, some limit, none, some totalPages, none, some hasNext, none, some hasPrev⟩

/-! ## PaginationEngine (src/engines/pagination.engine.ts)

The class declares `limit`, `totalPages` as `number` and `hasMore` as
`boolean`, but `setMeta` is fed through an `as any` cast from
`normalizeMeta`, whose `||`-normalization can produce `undefined`; the
runtime state type of those fields is therefore `number | undefined` /
`boolean | undefined`, modelled with `Option`. -/

structure PaginationEngine where
  page : Nat
  limit : Option Nat
  hasMore : Option Bool
  total : Nat
  totalPages : Option Nat
deriving DecidableEq, Repr

namespace PaginationEngine

/-- Field initializers of the class (`page=1, limit=50, hasMore=true,
total=0, totalPages=0`). -/
def init : PaginationEngine := ⟨1, some 50, some true, 0, some 0⟩

/-- Models `next()`: `if (!this.hasMore) return null; this.page += 1; return this.page`. -/
def next (e : PaginationEngine) : Option Nat × PaginationEngine :=
  if truthyB e.hasMore then (some (e.page + 1), { e with page := e.page + 1 })
  else (none, e)

/-- Models `prev()`: floors at page 1. -/
def prev (e : PaginationEngine) : Option Nat × PaginationEngine :=
  if e.page ≤ 1 then (none, e)
  else (some (e.page - 1), { e with page := e.page - 1 })

/-- Models `goToPage(page)`: rejects `page < 1`, and rejects pages beyond
`totalPages` when `totalPages > 0` (an `undefined` `totalPages` compares
false in JS, so no upper bound applies then). -/
def goToPage (e : PaginationEngine) (p : Nat) : Option Nat × PaginationEngine :=
  if p < 1 then (none, e)
  else
    match e.totalPages with
    | some tp =>
      if 0 < tp ∧ tp < p then (none, e) else (some p, { e with page := p })
    | none => (some p, { e with page := p })

/-- Models `setMeta(meta)`: authoritative overwrite of every pagination field. -/
def setMeta (_e : PaginationEngine) (m : NormMeta) : PaginationEngine :=
  { page := m.page, limit := m.limit, hasMore := m.hasNext,
    total := m.total, totalPages := m.totalPages }

/-- Models `setHasMore(hasMore)`. -/
def setHasMore (e : PaginationEngine) (b : Bool) : PaginationEngine :=
  { e with hasMore := some b }

/-- Models `reset()`: page→1, hasMore→true, total/totalPages→0; `limit` is kept. -/
def reset (e : PaginationEngine) : PaginationEngine :=
  { e with page := 1, hasMore := some true, total := 0, totalPages := some 0 }

end PaginationEngine

/-! ## AutosaveEngine (src/engines/autosave.engine.ts)

`timer` is modelled by whether a timeout is armed; `flushFn` by whether one
is installed (the constructor always installs one, so it is non-null in
every reachable state, but the field is kept because `execute` checks it).
`flushStarts` counts invocations of the flush callback that have begun and
`flushActive` those that have not yet settled — ghost counters that let
theorems talk about how many flushes ran / are in flight. -/

/-- Models `AUTOSAVE.DELAY_MS` (src/lib/constants.ts). -/
def AUTOSAVE_DELAY_MS : Nat := 30000

structure AutosaveEngine where
  timerArmed : Bool
  delay : Nat
  hasFlushFn : Bool
  isSaving : Bool
  flushStarts : Nat
  flushActive : Nat
deriving DecidableEq, Repr

namespace AutosaveEngine

/-- State right after `new AutosaveEngine(flushFn, delay)`. -/
def init (delay : Nat) : AutosaveEngine :=
  ⟨false, delay, true, false, 0, 0⟩

/-- Models `cancel()`: disarms the pending timer, nothing else. -/
def cancel (e : AutosaveEngine) : AutosaveEngine :=
  { e with timerArmed := false }

/-- Models `schedule()`: `cancel()` then, if a flush callback is installed, arm a
new timer for `delay`. -/
def schedule (e : AutosaveEngine) : AutosaveEngine :=
  let e' := e.cancel
  if e'.hasFlushFn then { e' with timerArmed := true } else e'

/-- Synchronous prefix of `execute()` up to the `await`: the reentrancy
guard, then `isSaving = true`, `timer = null`, and the flush callback is
invoked (counted in `flushStarts`/`flushActive`).  When the guard fires the
state is returned untouched and the callback is not invoked. -/
def execEnter (e : AutosaveEngine) : AutosaveEngine :=
  if !e.hasFlushFn || e.isSaving then e
  else
    { e with isSaving := true, timerArmed := false,
             flushStarts := e.flushStarts + 1, flushActive := e.flushActive + 1 }

/-- The rest of `execute()` once the awaited flush promise settles (either
way): the `catch` only logs, the `finally` resets `isSaving`. -/
def flushSettle (e : AutosaveEngine) : AutosaveEngine :=
  if e.flushActive > 0 then
    { e with isSaving := false, flushActive := e.flushActive - 1 }
  else e

/-- Models `execute()` run to completion against a flush callback whose promise
settles with `res`: the rejection is caught (`console.error`) and swallowed,
so the promise returned by `execute` always resolves. -/
def executeRun (e : AutosaveEngine) (_res : Except String Unit) :
    AutosaveEngine × Except String Unit :=
  if !e.hasFlushFn || e.isSaving then (e, Except.ok ())
  else (flushSettle (execEnter e), Except.ok ())

/-- Models `force()`: `cancel()` then `execute()`, returning `execute`'s promise. -/
def forceRun (e : AutosaveEngine) (res : Except String Unit) :
    AutosaveEngine × Except String Unit :=
  executeRun e.cancel res

/-- Models `isScheduled()`. -/
def isScheduled (e : AutosaveEngine) : Bool := e.timerArmed

/-- Models `getTimeRemaining()`: `this.isScheduled() ? this.delay : null` — the
source keeps no record of when `schedule()` was called. -/
def getTimeRemaining (e : AutosaveEngine) : Option Nat :=
  if e.isScheduled then some e.delay else none

/-- Externally observable events of one engine instance: the public calls,
a timer firing, and the settling of an in-flight flush promise. -/
inductive Ev where
  | schedule
  | cancel
  | force
  | timerFire
  | settle
deriving DecidableEq, Repr

/-- One step of the engine.  `force` and `timerFire` run the synchronous
part of `execute()`; the awaited flush settles later via `settle`.  A timer
only fires while armed, and a flush only settles while one is in flight
(otherwise the event is a no-op, keeping the step total). -/
def step (e : AutosaveEngine) : Ev → AutosaveEngine
  | Ev.schedule => e.schedule
  | Ev.cancel => e.cancel
  | Ev.force => execEnter e.cancel
  | Ev.timerFire => if e.timerArmed then execEnter e else e
  | Ev.settle => flushSettle e

/-- The engine state after a sequence of events, from a freshly constructed
engine. -/
def run (es : List Ev) : AutosaveEngine :=
  es.foldl step (init AUTOSAVE_DELAY_MS)

end AutosaveEngine

/-! ## RecordStore (src/state/record.store.ts)

The store's `async` methods suspend only at their remote API call; each is
modelled as a pure function taking the call's eventual result as an
`Except String α` parameter and returning the post-state, the list of
network calls issued, and the settled promise.  `fetchRecords` is split at
its `await` into `fetchStart` (everything before the network call, including
the search guard and the dedup/cooldown checks) and `fetchFinish`
(everything after), so that interleavings of two overlapping calls can be
stated; `fetchRecords` composes the two for callers that await the whole
thing (`deleteRecord`, `clearSearch`). -/

/-- Models `DatasetRecord` (src/types/record.types.ts is not in the tree; shape as
used by the store and documented for the data model: id, data, dirty,
optional serial number). -/
structure DatasetRecord where
  id : String
  data : Obj
  dirty : Bool
  serialNumber : Option Nat
deriving DecidableEq, Repr

/-- Models `state.search`. -/
structure SearchState where
  column : Option String
  value : Option String
deriving DecidableEq, Repr

/-- Models `state.pagination`.  After a fetch these fields are copied from the
normalized meta, so `limit`/`totalPages`/`hasMore` share its
possibly-`undefined` runtime type. -/
structure PaginationSlice where
  page : Nat
  limit : Option Nat
  total : Nat
  totalPages : Option Nat
  hasMore : Option Bool
deriving DecidableEq, Repr

/-- The observable `RecordStoreState` together with the store's private
fields (engines, dedup bookkeeping). -/
structure RecordStoreState where
  records : List DatasetRecord
  pagination : PaginationSlice
  search : SearchState
  isLoading : Bool
  isUpdating : Bool
  error : Option String
  dirtyEngine : DirtyEngine
  paginationEngine : PaginationEngine
  currentDatasetId : Option String
  isFetchingRecords : Bool
  lastFetchedRecordsDatasetId : Option String
  lastRecordsFetchTime : Option Nat
  isSearching : Bool
  lastSearchKey : Option String
  lastSearchTime : Option Nat
deriving DecidableEq, Repr

/-- Models `FETCH_COOLDOWN = 1000` (ms). -/
def FETCH_COOLDOWN : Nat := 1000

/-- One wire record list + meta, as returned by `getRecordsAPI` /
`searchRecordsAPI`. -/
structure FetchResponse where
  records : List DatasetRecord
  meta : WireMeta
deriving DecidableEq, Repr

/-- Arguments of one `fetchRecords` invocation. -/
structure FetchArgs where
  datasetId : String
  page : Option Nat
  append : Bool
  force : Bool
deriving DecidableEq, Repr

/-- A network call issued to `getRecordsAPI`, tagged with the `force` flag
of the `fetchRecords` invocation that issued it. -/
structure FetchCall where
  datasetId : String
  page : Nat
  force : Bool
deriving DecidableEq, Repr

namespace RecordStore

/-- The store's field initializers. -/
def initial : RecordStoreState where
  records := []
  pagination := ⟨1, some 50, 0, some 0, some false⟩
  search := ⟨none, none⟩
  isLoading := false
  isUpdating := false
  error := none
  dirtyEngine := DirtyEngine.empty
  paginationEngine := PaginationEngine.init
  currentDatasetId := none
  isFetchingRecords := false
  lastFetchedRecordsDatasetId := none
  lastRecordsFetchTime := none
  isSearching := false
  lastSearchKey := none
  lastSearchTime := none

/-- Models `clearRecords()` (this revision also resets the search slice and the
search dedup bookkeeping). -/
def clearRecords (rs : RecordStoreState) : RecordStoreState :=
  { rs with
      records := []
      pagination := ⟨1, some 50, 0, some 0, some false⟩
      search := ⟨none, none⟩
      paginationEngine := rs.paginationEngine.reset
      dirtyEngine := DirtyEngine.empty
      currentDatasetId := none
      lastFetchedRecordsDatasetId := none
      lastRecordsFetchTime := none
      lastSearchKey := none
      lastSearchTime := none }

/-- The search guard's condition:
`this.state.search.column || this.state.search.value` (JS truthiness). -/
def searchActive (rs : RecordStoreState) : Bool :=
  truthyS rs.search.column || truthyS rs.search.value

/-- Models `const currentPage = page || this.state.pagination.page` (a passed `0`
is falsy and also falls back to the state's page). -/
def computePage (rs : RecordStoreState) (a : FetchArgs) : Nat :=
  match a.page with
  | some p => if p = 0 then rs.pagination.page else p
  | none => rs.pagination.page

/-- The fetch-key template string
`` `${datasetId}-${currentPage}-${search.column || ''}-${search.value || ''}` ``. -/
def computeKey (rs : RecordStoreState) (a : FetchArgs) : String :=
  a.datasetId ++ "-" ++ toString (computePage rs a) ++ "-"
    ++ rs.search.column.getD "" ++ "-" ++ rs.search.value.getD ""

/-- The cooldown test `this.lastRecordsFetchTime &&
(Date.now() - this.lastRecordsFetchTime < FETCH_COOLDOWN)` (a `0` timestamp
is falsy; `Date.now()` is never `0`). -/
def cooldownActive (lastTime : Option Nat) (now : Nat) : Bool :=
  match lastTime with
  | some t => !(t == 0) && now - t < FETCH_COOLDOWN
  | none => false

/-- Outcome of the synchronous prefix of `fetchRecords`. -/
inductive StartOutcome where
  | skippedSearch
  | skippedInFlight
  | skippedCooldown
  | started (key : String) (page : Nat)
deriving DecidableEq, Repr

/-- Runs `fetchRecords` up to (and excluding) the `await getRecordsAPI(...)`:
the active-search guard, the duplicate-in-flight check, the cooldown check,
the dataset-switch clearing, then the bookkeeping writes and
`setState({ isLoading: true, error: null })`.  `now` is `Date.now()`. -/
def fetchStart (rs : RecordStoreState) (a : FetchArgs) (now : Nat) :
    RecordStoreState × StartOutcome :=
  if !a.force && searchActive rs then (rs, StartOutcome.skippedSearch)
  else if !a.force && rs.isFetchingRecords
      && rs.lastFetchedRecordsDatasetId == some (computeKey rs a) then
    (rs, StartOutcome.skippedInFlight)
  else if !a.force && rs.lastFetchedRecordsDatasetId == some (computeKey rs a)
      && cooldownActive rs.lastRecordsFetchTime now then
    (rs, StartOutcome.skippedCooldown)
  else
    ({ (if rs.currentDatasetId != some a.datasetId && !a.append then
          clearRecords rs
        else rs) with
        currentDatasetId := some a.datasetId
        isFetchingRecords := true
        lastFetchedRecordsDatasetId := some (computeKey rs a)
        isLoading := true
        error := none },
      StartOutcome.started (computeKey rs a) (computePage rs a))

/-- Runs `fetchRecords` after the `await`: on success normalize the meta, feed the
pagination engine, replace or append the record list, overlay each record's
`dirty` flag from the dirty engine, publish the new state and stamp the
cooldown clock; on failure store the error message and rethrow.  Either way
the `finally` clears `isFetchingRecords`. -/
def fetchFinish (rs : RecordStoreState) (a : FetchArgs)
    (res : Except String FetchResponse) (now : Nat) :
    RecordStoreState × Except String Unit :=
  match res with
  | Except.ok response =>
    let meta := normalizeMeta response.meta
    let records :=
      if a.append then rs.records ++ response.records else response.records
    let recordsWithDirty :=
      records.map (fun r => { r with dirty := rs.dirtyEngine.isDirty r.id })
    ({ rs with
        paginationEngine := rs.paginationEngine.setMeta meta
        records := recordsWithDirty
        pagination :=
          ⟨meta.page, meta.limit, meta.total, meta.totalPages, meta.hasNext⟩
        isLoading := false
        error := none
        lastRecordsFetchTime := some now
        isFetchingRecords := false },
      Except.ok ())
  | Except.error e =>
    ({ rs with isLoading := false, error := some e, isFetchingRecords := false },
      Except.error e)

/-- A whole `fetchRecords(datasetId, page, append, force)` call awaited to
completion, with the remote result `res`.  Returns the post-state, the
issued network calls (empty when an early return fired) and the settled
promise. -/
def fetchRecords (rs : RecordStoreState) (a : FetchArgs) (now : Nat)
    (res : Except String FetchResponse) :
    RecordStoreState × List FetchCall × Except String Unit :=
  match fetchStart rs a now with
  | (rs1, StartOutcome.started _ page) =>
    let (rs2, out) := fetchFinish rs1 a res now
    (rs2, [⟨a.datasetId, page, a.force⟩], out)
  | (rs1, _) => (rs1, [], Except.ok ())

/-- Models `updateRecord(recordId, data)`: merge into the dirty engine via
`update`, shallow-merge the in-memory record's `data`, set its `dirty` flag,
publish. Purely local — no network call. -/
def updateRecord (rs : RecordStoreState) (recordId : String) (data : Obj)
    (now : Nat) : RecordStoreState :=
  let de := rs.dirtyEngine.update recordId data now
  let records :=
    rs.records.map fun r =>
      if r.id = recordId then
        { r with data := spread r.data data, dirty := true }
      else r
  { rs with dirtyEngine := de, records := records }

/-- Models `updateRecords(records)` (the batched remote update used by autosave):
throws `'No active dataset'` without touching state when no dataset is
active; otherwise sets `isUpdating`, issues the batch call, and on success
clears each flushed id from the dirty engine and reconciles the local list;
on failure stores the error message and rethrows, leaving the dirty engine
untouched. -/
def updateRecords (rs : RecordStoreState) (payload : List RecordUpdatePayload)
    (api : Except String Unit) : RecordStoreState × Except String Unit :=
  match rs.currentDatasetId with
  | none => (rs, Except.error "No active dataset")
  | some _ =>
    let rs1 := { rs with isUpdating := true, error := none }
    match api with
    | Except.ok () =>
      let de := payload.foldl (fun e p => e.clear p.id) rs1.dirtyEngine
      let updatedRecords :=
        rs1.records.map fun r =>
          match payload.find? (fun p => p.id == r.id) with
          | some updated =>
            { r with data := spread r.data updated.data, dirty := false }
          | none => r
      ({ rs1 with
          dirtyEngine := de
          records := updatedRecords
          isUpdating := false
          error := none },
        Except.ok ())
    | Except.error e =>
      ({ rs1 with isUpdating := false, error := some e }, Except.error e)

/-- Models `deleteRecord(recordId)`: remote delete, then clear the id from the
dirty engine, force-refetch the current page, and if that leaves the list
empty while on a page past the first, force-fetch `max 1 (page-1)`.
`delRes` is the delete call's result and `res1`/`res2` those of the two
possible refetches.  Any rejection inside the `try` is caught once: the
error message is stored and the promise rejects. -/
def deleteRecord (rs : RecordStoreState) (recordId : String)
    (delRes : Except String Unit) (res1 res2 : Except String FetchResponse)
    (now : Nat) : RecordStoreState × List FetchCall × Except String Unit :=
  match rs.currentDatasetId with
  | none => (rs, [], Except.error "No active dataset")
  | some d =>
    let currentPage := rs.pagination.page
    let rs1 := { rs with isLoading := true, error := none }
    match delRes with
    | Except.error e =>
      ({ rs1 with isLoading := false, error := some e }, [], Except.error e)
    | Except.ok () =>
      let rs2 := { rs1 with dirtyEngine := rs1.dirtyEngine.clear recordId }
      let (rs3, calls1, out1) :=
        fetchRecords rs2 ⟨d, some currentPage, false, true⟩ now res1
      match out1 with
      | Except.error e =>
        ({ rs3 with isLoading := false, error := some e }, calls1, Except.error e)
      | Except.ok () =>
        if currentPage > 1 ∧ rs3.records.length = 0 then
          let fallbackPage := max 1 (currentPage - 1)
          let (rs4, calls2, out2) :=
            fetchRecords rs3 ⟨d, some fallbackPage, false, true⟩ now res2
          match out2 with
          | Except.error e =>
            ({ rs4 with isLoading := false, error := some e },
              calls1 ++ calls2, Except.error e)
          | Except.ok () => (rs4, calls1 ++ calls2, Except.ok ())
        else (rs3, calls1, Except.ok ())

end RecordStore

/-! ## AutosaveStore (src/state/autosave.store.ts) -/

/-- Models `AutosaveStatus`. -/
inductive AutosaveStatus where
  | idle
  | pending
  | saving
  | saved
  | error
deriving DecidableEq, Repr

/-- The `AutosaveStoreState` slice that `flushDirtyRecords` touches
(`dirtyCount`, maintained via the subscribe channel, is carried along but
not recomputed here). -/
structure AutosaveStoreState where
  status : AutosaveStatus
  lastSaved : Option Nat
  error : Option String
  dirtyCount : Nat
deriving DecidableEq, Repr

namespace AutosaveStore

/-- Models `flushDirtyRecords()` — the flush callback wired into the
`AutosaveEngine`: resolve immediately when nothing is dirty, otherwise send
one batched `updateRecords` with the snapshot of all dirty entries; on
success mark `saved` (the delayed saved→idle reset is a later timer, not
part of this call); on failure store the message, mark `error`, and
rethrow. -/
def flushDirtyRecords (as : AutosaveStoreState) (rs : RecordStoreState)
    (api : Except String Unit) (now : Nat) :
    AutosaveStoreState × RecordStoreState × Except String Unit :=
  if !rs.dirtyEngine.hasDirty then
    ({ as with status := AutosaveStatus.idle }, rs, Except.ok ())
  else
    let as1 := { as with status := AutosaveStatus.saving, error := none }
    let dirtyRecords := rs.dirtyEngine.getDirtyRecords
    if dirtyRecords.length = 0 then
      ({ as1 with status := AutosaveStatus.idle }, rs, Except.ok ())
    else
      match RecordStore.updateRecords rs dirtyRecords api with
      | (rs', Except.ok ()) =>
        ({ as1 with status := AutosaveStatus.saved, lastSaved := some now,
                    error := none },
          rs', Except.ok ())
      | (rs', Except.error e) =>
        ({ as1 with status := AutosaveStatus.error, error := some e },
          rs', Except.error e)

end AutosaveStore

/-! ## Concrete scenario instances (used to evaluate the theorems) -/

/-- A store sitting on page 2 of dataset `"D1"` with one last record. -/
def c6rs : RecordStoreState :=
  { RecordStore.initial with
      currentDatasetId := some "D1"
      pagination := ⟨2, some 50, 51, some 2, some false⟩
      records := [⟨"r1", [("colA", Value.str "x")], false, some 51⟩] }

/-- The forced refetch of page 2 after the delete: now empty. -/
def c6resp1 : FetchResponse := ⟨[], camelWire 2 50 50 1 false true⟩

/-- The fallback fetch of page 1. -/
def c6resp2 : FetchResponse :=
  ⟨[⟨"r0", [("colA", Value.str "y")], false, some 50⟩], camelWire 1 50 50 1 false false⟩

/-- A store with dataset `"D1"` active and no fetch history. -/
def c7rs : RecordStoreState :=
  { RecordStore.initial with currentDatasetId := some "D1" }

/-- Arguments of `fetchRecords("D1", 1)`, not forced. -/
def c7a : FetchArgs := ⟨"D1", some 1, false, false⟩

/-- An empty page-1 response. -/
def c7resp : FetchResponse := ⟨[], camelWire 1 50 0 1 false false⟩

/-- The store while the first `fetchRecords("D1", 1)` is in flight. -/
def c7s1 : RecordStoreState := (RecordStore.fetchStart c7rs c7a 100).1

/-- The store just after that fetch completed (at `t = 150` ms). -/
def c7s2 : RecordStoreState :=
  (RecordStore.fetchFinish c7s1 c7a (Except.ok c7resp) 150).1

/-! ## Helper lemmas -/

theorem objGet_objRemove_self (m : List (String × α)) (k : String) :
    objGet (objRemove m k) k = none := by
  induction m with
  | nil => rfl
  | cons p rest ih =>
    by_cases hp : p.1 = k
    · simpa [objRemove, hp] using ih
    · simpa [objRemove, objGet, hp] using ih

/-- Calling `update` on an id with no existing entry, then `update` again, leaves the
spread of the two patches buffered (the second stamp wins). -/
theorem DirtyEngine.update_update_fresh (e : DirtyEngine) (id : String)
    (p1 p2 : Obj) (t1 t2 : Nat) (h : objGet e.dirty id = none) :
    ((e.update id p1 t1).update id p2 t2).getDirty id
      = some ⟨id, spread p1 p2, t2⟩ := by
  unfold DirtyEngine.update DirtyEngine.mark DirtyEngine.getDirty
  simp only [h, objGet_objSet_self]

/-- Calling `clear` really removes the id. -/
theorem DirtyEngine.isDirty_clear_self (e : DirtyEngine) (id : String) :
    (e.clear id).isDirty id = false := by
  unfold DirtyEngine.clear DirtyEngine.isDirty
  rw [objGet_objRemove_self]
  rfl

/-- Reading `isDirty` as `false` means the underlying map holds no entry. -/
theorem DirtyEngine.getDirty_eq_none_of_not_isDirty (e : DirtyEngine)
    (id : String) (h : e.isDirty id = false) : objGet e.dirty id = none := by
  unfold DirtyEngine.isDirty at h
  cases hg : objGet e.dirty id with
  | none => rfl
  | some v => rw [hg] at h; simp at h

/-! ## Claims -/

/-- C1: for any record id with no pending entry, two patches routed through
the synchronizer's `updateRecord` before a flush leave the DirtyBuffer entry
for the id equal to the object-spread merge of the two patches (second stamp
wins), and a key lookup in that merge reads the second patch's value when the
key is named there and otherwise the first patch's — so editing two different
columns of one row before a flush preserves both edits.  `updateRecord` goes
through the dirty engine's merging `update`, not the wholesale-replacing
`mark`. -/
theorem claim_C1_updateRecord_merges (rs : RecordStoreState) (id : String)
    (p1 p2 : Obj) (t1 t2 : Nat) (k : String)
    (hfresh : rs.dirtyEngine.isDirty id = false)
    (hp2 : (p2.map Prod.fst).Nodup) :
    ((RecordStore.updateRecord (RecordStore.updateRecord rs id p1 t1) id p2 t2).dirtyEngine.getDirty id
        = some ⟨id, spread p1 p2, t2⟩) ∧
    objGet (spread p1 p2) k = firstSome (objGet p2 k) (objGet p1 k) := by
  constructor
  · have hnone := DirtyEngine.getDirty_eq_none_of_not_isDirty _ _ hfresh
    show ((rs.dirtyEngine.update id p1 t1).update id p2 t2).getDirty id = _
    exact DirtyEngine.update_update_fresh _ _ _ _ _ _ hnone
  · exact objGet_spread p1 p2 k hp2

/-- Witness for C1 at a concrete two-column edit. -/
theorem claim_C1_updateRecord_merges_witness :
    ((RecordStore.updateRecord
        (RecordStore.updateRecord RecordStore.initial "r1" [("colA", Value.num 1)] 10)
        "r1" [("colB", Value.num 2)] 20).dirtyEngine.getDirty "r1"
      = some ⟨"r1", spread [("colA", Value.num 1)] [("colB", Value.num 2)], 20⟩) ∧
    objGet (spread [("colA", Value.num 1)] [("colB", Value.num 2)]) "colA" =
      firstSome (objGet [("colB", Value.num 2)] "colA")
        (objGet [("colA", Value.num 1)] "colA") :=
  claim_C1_updateRecord_merges RecordStore.initial "r1"
    [("colA", Value.num 1)] [("colB", Value.num 2)] 10 20 "colA"
    (by decide) (by decide)

/-- C9: `PaginationEngine.next` with `hasMore = false` returns the `null`
sentinel and leaves the whole cursor (page included) unchanged; with
`hasMore = true` it returns `page+1` and advances only the page. -/
theorem claim_C9_pagination_next (e : PaginationEngine) :
    (e.hasMore = some false → e.next = (none, e)) ∧
    (e.hasMore = some true →
      e.next = (some (e.page + 1), { e with page := e.page + 1 })) := by
  constructor <;> intro h <;> simp [PaginationEngine.next, truthyB, h]

/-- Witness for C9 on concrete cursors at page 3. -/
theorem claim_C9_pagination_next_witness :
    (PaginationEngine.next ⟨3, some 50, some false, 7, some 2⟩
      = (none, ⟨3, some 50, some false, 7, some 2⟩)) ∧
    (PaginationEngine.next ⟨3, some 50, some true, 7, some 2⟩
      = (some (3 + 1), { page := 3 + 1, limit := some 50, hasMore := some true,
                         total := 7, totalPages := some 2 })) :=
  ⟨(claim_C9_pagination_next _).1 rfl, (claim_C9_pagination_next _).2 rfl⟩

/-- C10: `getTimeRemaining` answers the full configured delay whenever a
timer is armed — including immediately after `schedule()`, and however many
events have happened since — and `null` when none is armed; it has no notion
of elapsed time. -/
theorem claim_C10_time_remaining (e : AutosaveEngine) :
    (e.timerArmed = true → e.getTimeRemaining = some e.delay) ∧
    (e.timerArmed = false → e.getTimeRemaining = none) ∧
    (e.hasFlushFn = true → e.schedule.getTimeRemaining = some e.delay) := by
  refine ⟨fun h => ?_, fun h => ?_, fun h => ?_⟩ <;>
    simp [AutosaveEngine.getTimeRemaining, AutosaveEngine.isScheduled,
      AutosaveEngine.schedule, AutosaveEngine.cancel, h]

/-- Witness for C10 on a freshly constructed engine. -/
theorem claim_C10_time_remaining_witness :
    ((AutosaveEngine.init 30000).schedule.getTimeRemaining = some 30000) ∧
    ((AutosaveEngine.init 30000).getTimeRemaining = none) :=
  ⟨(claim_C10_time_remaining (AutosaveEngine.init 30000)).2.2 rfl,
   (claim_C10_time_remaining (AutosaveEngine.init 30000)).2.1 rfl⟩

/-- Reachability invariant of the autosave engine: the flush callback stays
installed, and a flush is in flight exactly while `isSaving` holds. -/
def AutosaveEngine.Inv (e : AutosaveEngine) : Prop :=
  e.hasFlushFn = true ∧ e.flushActive = (if e.isSaving then 1 else 0)

theorem AutosaveEngine.inv_step (e : AutosaveEngine) (ev : AutosaveEngine.Ev)
    (h : e.Inv) : (e.step ev).Inv := by
  obtain ⟨hf, ha⟩ := h
  cases ev with
  | schedule =>
    simp [AutosaveEngine.step, AutosaveEngine.schedule, AutosaveEngine.cancel,
      AutosaveEngine.Inv, hf, ha]
  | cancel =>
    simp [AutosaveEngine.step, AutosaveEngine.cancel, AutosaveEngine.Inv, hf, ha]
  | force =>
    by_cases hs : e.isSaving
    · simp [AutosaveEngine.step, AutosaveEngine.execEnter, AutosaveEngine.cancel,
        AutosaveEngine.Inv, hf, hs, ha]
    · simp [AutosaveEngine.step, AutosaveEngine.execEnter, AutosaveEngine.cancel,
        AutosaveEngine.Inv, hf, hs, ha]
  | timerFire =>
    by_cases ht : e.timerArmed
    · by_cases hs : e.isSaving
      · simp [AutosaveEngine.step, AutosaveEngine.execEnter, AutosaveEngine.Inv,
          hf, ht, hs, ha]
      · simp [AutosaveEngine.step, AutosaveEngine.execEnter, AutosaveEngine.Inv,
          hf, ht, hs, ha]
    · simp [AutosaveEngine.step, AutosaveEngine.Inv, hf, ht, ha]
  | settle =>
    by_cases hs : e.isSaving
    · simp [AutosaveEngine.step, AutosaveEngine.flushSettle, AutosaveEngine.Inv,
        hf, hs, ha]
    · simp [AutosaveEngine.step, AutosaveEngine.flushSettle, AutosaveEngine.Inv,
        hf, hs, ha]

theorem AutosaveEngine.inv_foldl (es : List AutosaveEngine.Ev)
    (e : AutosaveEngine) (h : e.Inv) : (es.foldl AutosaveEngine.step e).Inv := by
  induction es generalizing e with
  | nil => exact h
  | cons ev rest ih => exact ih _ (AutosaveEngine.inv_step e ev h)

theorem AutosaveEngine.inv_run (es : List AutosaveEngine.Ev) :
    (AutosaveEngine.run es).Inv :=
  AutosaveEngine.inv_foldl es _ ⟨rfl, rfl⟩

/-- C3: along every sequence of `schedule()`/`force()`/timer firings (and
flush settlements) on one engine, at most one flush execution is ever in
flight, and entering `execute()` while `isSaving` holds leaves the engine
untouched — the flush callback is not invoked (`flushStarts` unchanged), so
two overlapping flush executions never run. -/
theorem claim_C3_single_flight (es : List AutosaveEngine.Ev) :
    (AutosaveEngine.run es).flushActive ≤ 1 ∧
    ((AutosaveEngine.run es).isSaving = true →
      AutosaveEngine.execEnter (AutosaveEngine.run es) = AutosaveEngine.run es) := by
  obtain ⟨hf, ha⟩ := AutosaveEngine.inv_run es
  constructor
  · rw [ha]; split <;> omega
  · intro h
    simp [AutosaveEngine.execEnter, h]

/-- Witness for C3 on the run `schedule; timer fires` (which leaves a flush
in flight, so the saving hypothesis is discharged concretely). -/
theorem claim_C3_single_flight_witness :
    (AutosaveEngine.run [AutosaveEngine.Ev.schedule, AutosaveEngine.Ev.timerFire]).flushActive ≤ 1 ∧
    AutosaveEngine.execEnter
        (AutosaveEngine.run [AutosaveEngine.Ev.schedule, AutosaveEngine.Ev.timerFire])
      = AutosaveEngine.run [AutosaveEngine.Ev.schedule, AutosaveEngine.Ev.timerFire] :=
  ⟨(claim_C3_single_flight _).1, (claim_C3_single_flight _).2 (by decide)⟩

/-- C4 counterexample: on a freshly constructed engine (flush callback
installed, not saving), `force()` with a flush callback that rejects returns
a promise that RESOLVES — `execute()`'s `catch` swallows the rejection after
logging it, so, contrary to the claim, nothing propagates to `force()`'s
caller. -/
theorem claim_C4_counterexample :
    (AutosaveEngine.forceRun (AutosaveEngine.init 30000)
        (Except.error "network error")).2 = Except.ok () ∧
    ¬ (AutosaveEngine.forceRun (AutosaveEngine.init 30000)
        (Except.error "network error")).2 = Except.error "network error" := by
  constructor
  · rfl
  · intro h
    exact Except.noConfusion h

/-- C4 (amended): when the flush callback rejects, the scheduler neither
retries nor re-arms a timer itself — the engine afterwards has its timer
disarmed and the callback was invoked exactly once — but the rejection does
NOT propagate to the caller of `force()`: `execute()` catches and swallows
it (only logging), so the promise returned by `force()` resolves normally;
callers learn of the failure only through state surfaced elsewhere (e.g. the
autosave store's flush callback records it before rethrowing into this
swallow). -/
theorem claim_C4_rejection_swallowed (e : AutosaveEngine) (err : String)
    (hf : e.hasFlushFn = true) (hs : e.isSaving = false) :
    AutosaveEngine.forceRun e (Except.error err)
      = ({ e with timerArmed := false, flushStarts := e.flushStarts + 1 },
         Except.ok ()) := by
  simp [AutosaveEngine.forceRun, AutosaveEngine.executeRun, AutosaveEngine.cancel,
    AutosaveEngine.execEnter, AutosaveEngine.flushSettle, hf, hs]

/-- Witness for C4's amended statement on a concrete engine. -/
theorem claim_C4_rejection_swallowed_witness :
    AutosaveEngine.forceRun (AutosaveEngine.init 30000) (Except.error "boom")
      = ({ AutosaveEngine.init 30000 with timerArmed := false, flushStarts := 0 + 1 },
         Except.ok ()) :=
  claim_C4_rejection_swallowed (AutosaveEngine.init 30000) "boom" rfl rfl

/-- C2: when the batched remote update behind the flush path rejects, every
DirtyBuffer entry from before the flush is still present unchanged (the
whole dirty map is untouched), the error message lands in the
synchronizer's `state.error` (and in the autosave store's `error`), and the
flush promise rejects. -/
theorem claim_C2_flush_failure_preserves_dirty (as : AutosaveStoreState)
    (rs : RecordStoreState) (e d : String) (now : Nat)
    (hne : rs.dirtyEngine.dirty ≠ [])
    (hds : rs.currentDatasetId = some d) :
    (AutosaveStore.flushDirtyRecords as rs (Except.error e) now).2.1.dirtyEngine
        = rs.dirtyEngine ∧
    (AutosaveStore.flushDirtyRecords as rs (Except.error e) now).2.1.error
        = some e ∧
    (AutosaveStore.flushDirtyRecords as rs (Except.error e) now).1.error
        = some e ∧
    (AutosaveStore.flushDirtyRecords as rs (Except.error e) now).2.2
        = Except.error e := by
  have hpos : 0 < rs.dirtyEngine.dirty.length := by
    cases hl : rs.dirtyEngine.dirty with
    | nil => exact absurd hl hne
    | cons x xs => simp [hl]
  have hlen : rs.dirtyEngine.dirty.length ≠ 0 := Nat.pos_iff_ne_zero.mp hpos
  unfold AutosaveStore.flushDirtyRecords RecordStore.updateRecords
    DirtyEngine.hasDirty DirtyEngine.getDirtyRecords
  simp [hds, hpos, hlen]

/-- Witness for C2: a one-entry buffer, active dataset `"D1"`, rejecting
batch call. -/
theorem claim_C2_flush_failure_preserves_dirty_witness :
    (AutosaveStore.flushDirtyRecords ⟨AutosaveStatus.pending, none, none, 1⟩
        { RecordStore.initial with
            dirtyEngine := ⟨[("r1", ⟨"r1", [("colA", Value.num 1)], 5⟩)]⟩,
            currentDatasetId := some "D1" }
        (Except.error "Failed to update records") 99).2.1.dirtyEngine
      = ⟨[("r1", ⟨"r1", [("colA", Value.num 1)], 5⟩)]⟩ ∧
    (AutosaveStore.flushDirtyRecords ⟨AutosaveStatus.pending, none, none, 1⟩
        { RecordStore.initial with
            dirtyEngine := ⟨[("r1", ⟨"r1", [("colA", Value.num 1)], 5⟩)]⟩,
            currentDatasetId := some "D1" }
        (Except.error "Failed to update records") 99).2.1.error
      = some "Failed to update records" ∧
    (AutosaveStore.flushDirtyRecords ⟨AutosaveStatus.pending, none, none, 1⟩
        { RecordStore.initial with
            dirtyEngine := ⟨[("r1", ⟨"r1", [("colA", Value.num 1)], 5⟩)]⟩,
            currentDatasetId := some "D1" }
        (Except.error "Failed to update records") 99).1.error
      = some "Failed to update records" ∧
    (AutosaveStore.flushDirtyRecords ⟨AutosaveStatus.pending, none, none, 1⟩
        { RecordStore.initial with
            dirtyEngine := ⟨[("r1", ⟨"r1", [("colA", Value.num 1)], 5⟩)]⟩,
            currentDatasetId := some "D1" }
        (Except.error "Failed to update records") 99).2.2
      = Except.error "Failed to update records" := by
  have h := claim_C2_flush_failure_preserves_dirty
    ⟨AutosaveStatus.pending, none, none, 1⟩
    { RecordStore.initial with
        dirtyEngine := ⟨[("r1", ⟨"r1", [("colA", Value.num 1)], 5⟩)]⟩,
        currentDatasetId := some "D1" }
    "Failed to update records" "D1" 99 (by decide) rfl
  exact h

/-- C5: while the search criteria is set (a truthy search column or value),
`fetchRecords` with `force = false` returns immediately: the state —
record list and pagination included — is untouched and no network call is
issued; the same call with `force = true` does go to the network. -/
theorem claim_C5_search_blocks_fetch (rs : RecordStoreState) (a : FetchArgs)
    (now : Nat) (res : Except String FetchResponse)
    (hsearch : RecordStore.searchActive rs = true)
    (hforce : a.force = false) :
    RecordStore.fetchRecords rs a now res = (rs, [], Except.ok ()) ∧
    (RecordStore.fetchRecords rs { a with force := true } now res).2.1
      = [⟨a.datasetId, RecordStore.computePage rs a, true⟩] := by
  constructor
  · simp [RecordStore.fetchRecords, RecordStore.fetchStart, hsearch, hforce]
  · simp only [RecordStore.fetchRecords, RecordStore.fetchStart]
    simp [RecordStore.computePage]

/-- Witness for C5: search mode `name="x"`, non-forced page fetch. -/
theorem claim_C5_search_blocks_fetch_witness :
    RecordStore.fetchRecords
        { RecordStore.initial with search := ⟨some "name", some "x"⟩ }
        ⟨"D1", some 2, false, false⟩ 777 (Except.error "net")
      = ({ RecordStore.initial with search := ⟨some "name", some "x"⟩ },
         [], Except.ok ()) ∧
    (RecordStore.fetchRecords
        { RecordStore.initial with search := ⟨some "name", some "x"⟩ }
        ⟨"D1", some 2, false, true⟩ 777 (Except.error "net")).2.1
      = [⟨"D1", RecordStore.computePage
            { RecordStore.initial with search := ⟨some "name", some "x"⟩ }
            ⟨"D1", some 2, false, false⟩, true⟩] :=
  claim_C5_search_blocks_fetch
    { RecordStore.initial with search := ⟨some "name", some "x"⟩ }
    ⟨"D1", some 2, false, false⟩ 777 (Except.error "net") (by decide) rfl

/-- C8 counterexample: a wire meta with `totalPages = 0` (an empty dataset)
normalizes differently under the two namings — `total_page: 0 || undefined`
is `undefined` (JS `||` treats `0` as falsy) while camelCase yields `0` — so
the pagination state after `setMeta` differs between the two namings,
refuting "the resulting pagination state is the same for either wire
naming" as a universal statement. -/
theorem claim_C8_counterexample :
    normalizeMeta (snakeWire 1 50 0 0 false false)
        ≠ normalizeMeta (camelWire 1 50 0 0 false false) ∧
    (PaginationEngine.init.setMeta
        (normalizeMeta (snakeWire 1 50 0 0 false false))).totalPages
      ≠ (PaginationEngine.init.setMeta
        (normalizeMeta (camelWire 1 50 0 0 false false))).totalPages := by
  constructor
  · intro h
    have := congrArg NormMeta.totalPages h
    simp [normalizeMeta, snakeWire, camelWire, jsOrNat, truthyN] at this
  · intro h
    simp [PaginationEngine.setMeta, normalizeMeta, snakeWire, camelWire,
      jsOrNat, truthyN] at h

/-- C8 (amended): whenever the numeric meta fields that travel under a
snake_case name are nonzero — `page_size` and `total_page` at `0` are
dropped by the `||`-normalization — a response carrying the same canonical
values under snake_case names and under camelCase names normalizes to the
same canonical shape, and `PaginationEngine.setMeta` therefore produces the
same pagination state for either wire naming (the boolean fields are
compared against `undefined`, so they agree even when `false`). -/
theorem claim_C8_meta_normalization (page limit total totalPages : Nat)
    (hasNext hasPrev : Bool) (pe : PaginationEngine)
    (hl : limit ≠ 0) (htp : totalPages ≠ 0) :
    normalizeMeta (snakeWire page limit total totalPages hasNext hasPrev)
        = normalizeMeta (camelWire page limit total totalPages hasNext hasPrev) ∧
    normalizeMeta (snakeWire page limit total totalPages hasNext hasPrev)
        = ⟨page, some limit, total, some totalPages, some hasNext, some hasPrev⟩ ∧
    pe.setMeta (normalizeMeta (snakeWire page limit total totalPages hasNext hasPrev))
        = pe.setMeta (normalizeMeta (camelWire page limit total totalPages hasNext hasPrev)) := by
  refine ⟨?_, ?_, ?_⟩ <;>
    simp [normalizeMeta, snakeWire, camelWire, jsOrNat, truthyN, firstSome,
      PaginationEngine.setMeta, hl, htp]

/-- Witness for C8's amended statement on a nonzero meta. -/
theorem claim_C8_meta_normalization_witness :
    normalizeMeta (snakeWire 2 50 120 3 true true)
        = normalizeMeta (camelWire 2 50 120 3 true true) ∧
    normalizeMeta (snakeWire 2 50 120 3 true true)
        = ⟨2, some 50, 120, some 3, some true, some true⟩ ∧
    PaginationEngine.init.setMeta (normalizeMeta (snakeWire 2 50 120 3 true true))
        = PaginationEngine.init.setMeta (normalizeMeta (camelWire 2 50 120 3 true true)) :=
  claim_C8_meta_normalization 2 50 120 3 true true PaginationEngine.init
    (by decide) (by decide)

/-- Inverting a `fetchStart` that reached the network call: afterwards the
in-flight flag is up, the fetch-key is recorded, and no search is active
(for a non-forced call the search guard must have passed, and a dataset
switch clears the search slice). -/
theorem RecordStore.fetchStart_started (rs : RecordStoreState) (a : FetchArgs)
    (now : Nat) (s1 : RecordStoreState) (k : String) (p : Nat)
    (h : RecordStore.fetchStart rs a now = (s1, RecordStore.StartOutcome.started k p))
    (hforce : a.force = false) :
    s1.isFetchingRecords = true ∧
    s1.lastFetchedRecordsDatasetId = some k ∧
    RecordStore.searchActive s1 = false := by
  unfold RecordStore.fetchStart at h
  split at h
  · simp at h
  · split at h
    · simp at h
    · split at h
      · simp at h
      · rw [Prod.mk.injEq] at h
        obtain ⟨hs1, hout⟩ := h
        injection hout with hk hp
        subst hs1
        subst hk
        refine ⟨rfl, rfl, ?_⟩
        rename_i hguard _ _
        have hsa : RecordStore.searchActive rs = false := by
          rw [Bool.not_eq_true, Bool.and_eq_false_iff] at hguard
          rcases hguard with hg | hg
          · rw [hforce] at hg; simp at hg
          · exact hg
        show RecordStore.searchActive
          { (if rs.currentDatasetId != some a.datasetId && !a.append then
                RecordStore.clearRecords rs
              else rs) with
              currentDatasetId := some a.datasetId
              isFetchingRecords := true
              lastFetchedRecordsDatasetId := some (RecordStore.computeKey rs a)
              isLoading := true
              error := none } = false
        unfold RecordStore.searchActive
        split
        · simp [RecordStore.clearRecords, truthyS]
        · exact hsa

/-- C7: two `fetchRecords` calls that compute an identical fetch-key, the
second non-forced and issued either while the first is still in flight or
within the 1s cooldown window after the first completed, produce exactly one
network call: the first call issues its single `getRecordsAPI` request, and
the second is a no-op (state returned untouched, no call issued) in both the
overlap scenario (second conjunct) and the cooldown scenario (third
conjunct). -/
theorem claim_C7_fetch_dedup (rs s1 s2 : RecordStoreState) (a : FetchArgs)
    (t0 t1 t2 : Nat) (k : String) (p : Nat) (resp : FetchResponse)
    (res1 res2 res3 : Except String FetchResponse)
    (hstart : RecordStore.fetchStart rs a t0 = (s1, RecordStore.StartOutcome.started k p))
    (hforce : a.force = false)
    (hkey1 : RecordStore.computeKey s1 a = k)
    (hfin : RecordStore.fetchFinish s1 a (Except.ok resp) t1 = (s2, Except.ok ()))
    (hkey2 : RecordStore.computeKey s2 a = k)
    (ht1 : 0 < t1) (hcool : t2 - t1 < FETCH_COOLDOWN) :
    (RecordStore.fetchRecords rs a t0 res1).2.1 = [⟨a.datasetId, p, a.force⟩] ∧
    RecordStore.fetchRecords s1 a t1 res2 = (s1, [], Except.ok ()) ∧
    RecordStore.fetchRecords s2 a t2 res3 = (s2, [], Except.ok ()) := by
  obtain ⟨hF, hK, hS⟩ := RecordStore.fetchStart_started rs a t0 s1 k p hstart hforce
  refine ⟨?_, ?_, ?_⟩
  · unfold RecordStore.fetchRecords
    rw [hstart]
  · unfold RecordStore.fetchRecords RecordStore.fetchStart
    rw [hkey1]
    simp [hforce, hS, hF, hK]
  · have ht1' : ¬ t1 = 0 := Nat.pos_iff_ne_zero.mp ht1
    unfold RecordStore.fetchFinish at hfin
    rw [Prod.mk.injEq] at hfin
    obtain ⟨hs2, -⟩ := hfin
    subst hs2
    rw [RecordStore.searchActive] at hS
    unfold RecordStore.fetchRecords RecordStore.fetchStart
    rw [hkey2]
    simp [RecordStore.searchActive, RecordStore.cooldownActive, hforce, hS,
      hK, ht1', hcool]

/-- A forced `fetchRecords` on the already-active dataset runs start to
finish: every guard is bypassed, exactly one network call goes out, and the
response is published. -/
theorem RecordStore.fetchRecords_forced_same (rs : RecordStoreState)
    (a : FetchArgs) (now : Nat) (resp : FetchResponse)
    (hforce : a.force = true) (hsame : rs.currentDatasetId = some a.datasetId) :
    RecordStore.fetchRecords rs a now (Except.ok resp) =
      ({ rs with
          records :=
            (if a.append then rs.records ++ resp.records else resp.records).map
              (fun r => { r with dirty := rs.dirtyEngine.isDirty r.id })
          pagination :=
            ⟨(normalizeMeta resp.meta).page, (normalizeMeta resp.meta).limit,
             (normalizeMeta resp.meta).total, (normalizeMeta resp.meta).totalPages,
             (normalizeMeta resp.meta).hasNext⟩
          isLoading := false
          error := none
          paginationEngine := rs.paginationEngine.setMeta (normalizeMeta resp.meta)
          currentDatasetId := some a.datasetId
          isFetchingRecords := false
          lastFetchedRecordsDatasetId := some (RecordStore.computeKey rs a)
          lastRecordsFetchTime := some now },
       [⟨a.datasetId, RecordStore.computePage rs a, true⟩], Except.ok ()) := by
  unfold RecordStore.fetchRecords RecordStore.fetchStart RecordStore.fetchFinish
  simp [hforce, hsame]

/-- C6: a successful `deleteRecord(id)` clears the id from the DirtyBuffer
and force-refetches the current page; when that refetch comes back empty
while the page is past the first, a second forced fetch of `page-1` follows
(so deleting the last record of page 2 auto-loads page 1); the calls issued
are exactly those, and the promise resolves. -/
theorem claim_C6_delete_refetch (rs : RecordStoreState) (id d : String)
    (resp1 resp2 : FetchResponse) (now : Nat)
    (hds : rs.currentDatasetId = some d)
    (hpage : 0 < rs.pagination.page) :
    ((RecordStore.deleteRecord rs id (Except.ok ()) (Except.ok resp1)
        (Except.ok resp2) now).1.dirtyEngine.isDirty id = false) ∧
    (RecordStore.deleteRecord rs id (Except.ok ()) (Except.ok resp1)
        (Except.ok resp2) now).2.1
      = ⟨d, rs.pagination.page, true⟩ ::
        (if 1 < rs.pagination.page ∧ resp1.records = [] then
          [⟨d, rs.pagination.page - 1, true⟩] else []) ∧
    (RecordStore.deleteRecord rs id (Except.ok ()) (Except.ok resp1)
        (Except.ok resp2) now).2.2 = Except.ok () := by
  have hp0 : ¬ rs.pagination.page = 0 := Nat.pos_iff_ne_zero.mp hpage
  unfold RecordStore.deleteRecord
  rw [hds]
  dsimp only []
  rw [RecordStore.fetchRecords_forced_same]
  rotate_left
  · rfl
  · rfl
  simp only [Bool.false_eq_true, if_false, List.length_map, List.length_eq_zero]
  split
  · rename_i hcondT
    obtain ⟨hgt, hempty⟩ := hcondT
    rw [RecordStore.fetchRecords_forced_same]
    rotate_left
    · rfl
    · rfl
    dsimp only []
    have hmax : (1 : Nat) ⊔ (rs.pagination.page - 1) = rs.pagination.page - 1 := by
      omega
    have hsub : ¬ rs.pagination.page - 1 = 0 := by omega
    refine ⟨DirtyEngine.isDirty_clear_self _ _, ?_, rfl⟩
    simp [RecordStore.computePage, hp0, hmax, hsub]
  · refine ⟨DirtyEngine.isDirty_clear_self _ _, ?_, rfl⟩
    simp [RecordStore.computePage, hp0]

/-- Witness for C6: deleting the last record of page 2 issues a forced
refetch of page 2 and then auto-loads page 1. -/
theorem claim_C6_delete_refetch_witness :
    ((RecordStore.deleteRecord c6rs "r1" (Except.ok ()) (Except.ok c6resp1)
        (Except.ok c6resp2) 42).1.dirtyEngine.isDirty "r1" = false) ∧
    (RecordStore.deleteRecord c6rs "r1" (Except.ok ()) (Except.ok c6resp1)
        (Except.ok c6resp2) 42).2.1
      = ⟨"D1", c6rs.pagination.page, true⟩ ::
        (if 1 < c6rs.pagination.page ∧ c6resp1.records = [] then
          [⟨"D1", c6rs.pagination.page - 1, true⟩] else []) ∧
    (RecordStore.deleteRecord c6rs "r1" (Except.ok ()) (Except.ok c6resp1)
        (Except.ok c6resp2) 42).2.2 = Except.ok () :=
  claim_C6_delete_refetch c6rs "r1" "D1" c6resp1 c6resp2 42 rfl (by decide)

/-- Witness for C7: two `fetchRecords("D1", 1)` calls overlapping in flight,
and a third within the cooldown window — only the first goes to the
network. -/
theorem claim_C7_fetch_dedup_witness :
    (RecordStore.fetchRecords c7rs c7a 100 (Except.ok c7resp)).2.1
      = [⟨c7a.datasetId, 1, c7a.force⟩] ∧
    RecordStore.fetchRecords c7s1 c7a 150 (Except.ok c7resp)
      = (c7s1, [], Except.ok ()) ∧
    RecordStore.fetchRecords c7s2 c7a 600 (Except.ok c7resp)
      = (c7s2, [], Except.ok ()) :=
  claim_C7_fetch_dedup c7rs c7s1 c7s2 c7a 100 150 600 "D1-1--" 1 c7resp
    (Except.ok c7resp) (Except.ok c7resp) (Except.ok c7resp)
    rfl rfl (by decide) rfl (by decide) (by decide) (by decide)

end RecordFE
